import Mathlib

/-!
Shallow embedding of the video-generation task orchestrator of the
`testbot` repository (files `src/bot/database/database.py`,
`src/bot/services/video_service.py`, `src/bot/services/heygen_api.py`,
`src/bot/handlers/conversation.py`, `src/bot/utils/validators.py`,
`src/bot/config.py`).

Conventions of the embedding:
* SQLAlchemy rows become plain structures; the database becomes an explicit
  `DBState` value threaded through the operations.
* Python `datetime` values become abstract `Nat` clock readings supplied by
  the caller (`now`, `today_start`).
* Python string truthiness (`if x:` on an `Optional[str]`) is modelled by
  `truthyStr` (false exactly for `None` and the empty string).
* Statuses are the literal strings used by the source
  (`"pending" / "processing" / "completed" / "failed"`).
* External calls to the HeyGen client are modelled as environment-supplied
  outcomes; a raised exception is an `Except.error` carrying `str(e)`.
-/

namespace TestBot

/-- Row of the `users` table (`src/bot/database/models.py`, class `User`). -/
structure User where
  user_id : Nat
  username : Option String
  registration_date : Nat
  total_videos_generated : Nat
  last_request_date : Option Nat
deriving Repr, DecidableEq

/-- Row of the `video_tasks` table (`src/bot/database/models.py`, class `VideoTask`). -/
structure VideoTask where
  task_id : Nat
  user_id : Nat
  heygen_video_id : Option String
  avatar_id : String
  voice_id : String
  input_text : String
  status : String
  created_at : Nat
  completed_at : Option Nat
  video_url : Option String
  error_message : Option String
deriving Repr, DecidableEq

/-- The repository state: the two tables plus the autoincrement counter for
`video_tasks.task_id`. -/
structure DBState where
  users : List User
  tasks : List VideoTask
  next_task_id : Nat
deriving Repr, DecidableEq

/-- Python truthiness of an `Optional[str]`: `None` and `""` are falsy. -/
def truthyStr : Option String → Bool
  | none => false
  | some s => !(s == "")

/-- Field update applied by `Database.update_task_status`
(`src/bot/database/database.py` lines 74-83) to the selected row: the status is
overwritten unconditionally, the three optional columns only when the argument
is truthy, and `completed_at` is stamped exactly when the new status is
`"completed"`. -/
def applyUpd (status : String) (heygen_video_id video_url error_message : Option String)
    (now : Nat) (t : VideoTask) : VideoTask :=
  { t with
    status := status
    heygen_video_id := if truthyStr heygen_video_id then heygen_video_id else t.heygen_video_id
    video_url := if truthyStr video_url then video_url else t.video_url
    error_message := if truthyStr error_message then error_message else t.error_message
    completed_at := if status == "completed" then some now else t.completed_at }

/-- Embedding of `Database.update_task_status`: select the row with the given
primary key; if present, apply `applyUpd` and return the updated row, otherwise
return `None` and leave the state untouched. -/
def update_task_status (s : DBState) (task_id : Nat) (status : String)
    (heygen_video_id video_url error_message : Option String) (now : Nat) :
    DBState × Option VideoTask :=
  match s.tasks.find? (fun t => t.task_id == task_id) with
  | none => (s, none)
  | some t =>
    ({ s with tasks := s.tasks.map (fun u =>
        if u.task_id == task_id then applyUpd status heygen_video_id video_url error_message now u else u) },
      some (applyUpd status heygen_video_id video_url error_message now t))

/-- Embedding of `Database.get_task_by_id`: a pure read. -/
def get_task_by_id (s : DBState) (task_id : Nat) : Option VideoTask :=
  s.tasks.find? (fun t => t.task_id == task_id)

/-- Embedding of `Database.create_video_task`: insert a fresh `pending` row
with the next autoincrement id and the caller-supplied creation time. -/
def create_video_task (s : DBState) (user_id : Nat)
    (avatar_id voice_id input_text : String) (now : Nat) : DBState × VideoTask :=
  let t : VideoTask :=
    { task_id := s.next_task_id, user_id := user_id, heygen_video_id := none
      avatar_id := avatar_id, voice_id := voice_id, input_text := input_text
      status := "pending", created_at := now, completed_at := none
      video_url := none, error_message := none }
  ({ s with tasks := s.tasks ++ [t], next_task_id := s.next_task_id + 1 }, t)

/-- Embedding of `Database.get_user_daily_requests`: count the rows owned by
`user_id` created at or after the start of the current UTC day (the caller
supplies `today_start`, the `utcnow().replace(hour=0, ...)` value). -/
def get_user_daily_requests (s : DBState) (user_id today_start : Nat) : Nat :=
  (s.tasks.filter (fun t => t.user_id == user_id && today_start ≤ t.created_at)).length

/-- A row counts as active when its status is `pending` or `processing`. -/
def isActiveTask (t : VideoTask) : Bool :=
  t.status == "pending" || t.status == "processing"

/-- Modelled from the spec: `Database.get_user_active_tasks` is called by
`VideoService.cancel_task` and `VideoService.get_task_status_message` but its
definition is missing from the source snapshot (`database.py` only defines the
singular `get_user_active_task`); the spec's Repository interface
(`getUserActiveTasks(userId)`) reads the tasks owned by `userId` with status in
`{pending, processing}`. -/
def get_user_active_tasks (s : DBState) (user_id : Nat) : List VideoTask :=
  s.tasks.filter (fun t => t.user_id == user_id && isActiveTask t)

/-- Modelled from the spec: `Database.get_user_active_tasks_count` is called by
`VideoService.can_user_generate_video` but its definition is missing from the
source snapshot; the spec's Repository interface (`getUserActiveTaskCount`)
reads the current count of tasks owned by `userId` with status in
`{pending, processing}`. -/
def get_user_active_tasks_count (s : DBState) (user_id : Nat) : Nat :=
  (get_user_active_tasks s user_id).length

/-- Embedding of `Database.increment_user_videos`: bump the owner's cumulative
counter and stamp the last-request time. -/
def increment_user_videos (s : DBState) (user_id now : Nat) : DBState :=
  { s with users := s.users.map (fun u =>
      if u.user_id == user_id then
        { u with total_videos_generated := u.total_videos_generated + 1
                 last_request_date := some now }
      else u) }

/-- Configuration surface (`src/bot/config.py`). -/
structure Config where
  max_daily_requests : Nat
  max_concurrent_tasks : Nat
  video_check_interval : Nat
  video_generation_timeout : Nat
  max_text_length : Nat
deriving Repr, DecidableEq

/-- The environment defaults of `config.py`. -/
def defaultConfig : Config :=
  { max_daily_requests := 5, max_concurrent_tasks := 3
    video_check_interval := 15, video_generation_timeout := 600
    max_text_length := 2000 }

/-- Concurrency refusal message of `VideoService.can_user_generate_video`. -/
def concurrencyReason (active limit : Nat) : String :=
  "У вас уже " ++ toString active ++ " активных задач (максимум " ++ toString limit ++
    "). Дождитесь завершения или используйте /cancel."

/-- Daily-quota refusal message of `VideoService.can_user_generate_video`. -/
def dailyReason (limit : Nat) : String :=
  "Вы достигли дневного лимита генераций (" ++ toString limit ++ "). Попробуйте завтра."

/-- Embedding of `VideoService.can_user_generate_video`
(`src/bot/services/video_service.py` lines 17-37): two read-only checks chained
in order, concurrent limit first.  The state is threaded explicitly to make the
read-only nature of the check a provable statement. -/
def can_user_generate_video (cfg : Config) (s : DBState) (user_id today_start : Nat) :
    DBState × Bool × String :=
  let active_tasks_count := get_user_active_tasks_count s user_id
  if cfg.max_concurrent_tasks ≤ active_tasks_count then
    (s, false, concurrencyReason active_tasks_count cfg.max_concurrent_tasks)
  else
    let daily_requests := get_user_daily_requests s user_id today_start
    if cfg.max_daily_requests ≤ daily_requests then
      (s, false, dailyReason cfg.max_daily_requests)
    else
      (s, true, "")

/-- Error detail recorded by `VideoService.cancel_task`. -/
def cancelDetail : String := "Отменено пользователем"

/-- Python truthiness of the `task_id: Optional[int]` argument of
`VideoService.cancel_task` (`if task_id:`): `None` and `0` are falsy. -/
def truthyNat : Option Nat → Bool
  | none => false
  | some n => !(n == 0)

/-- Embedding of `VideoService.cancel_task`
(`src/bot/services/video_service.py` lines 206-249).  With a truthy `task_id`
it cancels that one task after an ownership and status check; otherwise it
bulk-cancels every active task of the user, folding `update_task_status`
over the active list. -/
def cancel_task (s : DBState) (user_id : Nat) (task_id : Option Nat) (now : Nat) :
    DBState × Bool × String :=
  if truthyNat task_id then
    let tid := task_id.getD 0
    match get_task_by_id s tid with
    | none => (s, false, "Задача не найдена.")
    | some task =>
      if !(task.user_id == user_id) then (s, false, "Задача не найдена.")
      else if !isActiveTask task then (s, false, "Эта задача уже завершена или отменена.")
      else
        ((update_task_status s tid "failed" none none (some cancelDetail) now).1,
          true, "Задача #" ++ toString tid ++ " отменена.")
  else
    let active_tasks := get_user_active_tasks s user_id
    if active_tasks.isEmpty then (s, false, "У вас нет активных задач для отмены.")
    else
      let s1 := active_tasks.foldl
        (fun acc t => (update_task_status acc t.task_id "failed" none none (some cancelDetail) now).1) s
      (s1, true, "Отменено задач: " ++ toString active_tasks.length ++ ".")

/-- One line of the status summary built by
`VideoService.get_task_status_message` for an active task. -/
def statusLine (i : Nat) (t : VideoTask) : String :=
  let status_emoji := if t.status == "pending" then "⏳" else "⚙️"
  let status_text := if t.status == "pending" then "в очереди" else "генерируется"
  let text_preview :=
    if 50 < t.input_text.length then String.mk (t.input_text.data.take 50) ++ "..."
    else t.input_text
  toString i ++ ". " ++ status_emoji ++ " Задача #" ++ toString t.task_id ++ " - " ++
    status_text ++ "\n   Текст: " ++ text_preview ++ "\n"

/-- Embedding of `VideoService.get_task_status_message`
(`src/bot/services/video_service.py` lines 251-280): a side-effect-free
rendering of the user's active tasks. -/
def get_task_status_message (s : DBState) (user_id : Nat) : String :=
  let active_tasks := get_user_active_tasks s user_id
  if active_tasks.isEmpty then "У вас нет активных задач генерации видео."
  else
    let header := "📊 *Активные задачи (" ++ toString active_tasks.length ++ "):*\n"
    let lines := (List.range active_tasks.length).zip active_tasks |>.map
      (fun p => statusLine (p.1 + 1) p.2)
    String.intercalate "\n" (header :: lines)

/-! ## The HeyGen client as an abstract environment

`VideoService.generate_video` consumes the rendering client through two calls:
`heygen_api.generate_video` (submission, returning a render id or `None`) and
`heygen_api.wait_for_video` (polling, returning an asset URL or `None`).  Both
sit inside a `try` block whose `except` handler marks the task failed with
`str(e)`.  The environment supplies the outcome of each call; `Except.error e`
models a raised exception with message `e`. -/

structure Env where
  submit : Except String (Option String)
  wait : Except String (Option String)

/-- Ghost log of a single `generate_video` run: which status updates were
written and how many times each external call was made. -/
structure RunLog where
  updates : List (Nat × String)
  submits : Nat
  waits : Nat
deriving Repr, DecidableEq

def notFoundReply : String := "Задача не найдена"

def submitFailDetail : String := "Не удалось инициировать генерацию видео"

def submitFailReply : String :=
  "Не удалось создать видео. Проверьте правильность ID аватара и голоса."

def timeoutDetail : String :=
  "Генерация видео превысила лимит времени или завершилась с ошибкой"

def timeoutReply : String :=
  "Генерация видео заняла слишком много времени или завершилась с ошибкой. Попробуйте снова."

def genericErrorReply : String := "Произошла ошибка при генерации видео. Попробуйте позже."

/-- Embedding of `VideoService.generate_video`
(`src/bot/services/video_service.py` lines 105-176).  The talking-photo and
avatar branches of the source differ only in which arguments reach the client's
submit call, which the abstract `Env` subsumes.  `if not video_id:` and
`if not video_url:` are Python truthiness tests, so an empty-string result
takes the failure branch.  The result is `Except.ok` of the `(success, error
message)` pair the source returns; an `Except.error` result would model an
exception escaping the method. -/
def generate_video (env : Env) (s : DBState) (task_id now : Nat) :
    DBState × Except String (Bool × Option String) × RunLog :=
  match get_task_by_id s task_id with
  | none => (s, Except.ok (false, some notFoundReply), ⟨[], 0, 0⟩)
  | some task =>
    match env.submit with
    | Except.error e =>
      ((update_task_status s task_id "failed" none none (some e) now).1,
        Except.ok (false, some genericErrorReply), ⟨[(task_id, "failed")], 1, 0⟩)
    | Except.ok video_id =>
      if !truthyStr video_id then
        ((update_task_status s task_id "failed" none none (some submitFailDetail) now).1,
          Except.ok (false, some submitFailReply), ⟨[(task_id, "failed")], 1, 0⟩)
      else
        let s1 := (update_task_status s task_id "processing" video_id none none now).1
        match env.wait with
        | Except.error e =>
          ((update_task_status s1 task_id "failed" none none (some e) now).1,
            Except.ok (false, some genericErrorReply),
            ⟨[(task_id, "processing"), (task_id, "failed")], 1, 1⟩)
        | Except.ok video_url =>
          if !truthyStr video_url then
            ((update_task_status s1 task_id "failed" none none (some timeoutDetail) now).1,
              Except.ok (false, some timeoutReply),
              ⟨[(task_id, "processing"), (task_id, "failed")], 1, 1⟩)
          else
            let s2 := (update_task_status s1 task_id "completed" none video_url none now).1
            let s3 := increment_user_videos s2 task.user_id now
            (s3, Except.ok (true, none),
              ⟨[(task_id, "processing"), (task_id, "completed")], 1, 1⟩)

/-! ## Orchestrator-level operations as a single step language (for the
no-unhandled-fault claim). -/

inductive CoreOp where
  | canGen (cfg : Config) (user_id today_start : Nat)
  | genVideo (env : Env) (task_id now : Nat)
  | cancel (user_id : Nat) (task_id : Option Nat) (now : Nat)
  | statusMsg (user_id : Nat)

inductive CoreReply where
  | eligibility (ok : Bool) (msg : String)
  | genResult (ok : Bool) (err : Option String)
  | cancelResult (ok : Bool) (msg : String)
  | statusText (msg : String)
deriving Repr, DecidableEq

/-- Run one orchestrator-level operation.  Only `generate_video` contains a
`try/except`; the other three operations perform no call that the embedding
models as throwing. -/
def runOp (op : CoreOp) (s : DBState) : DBState × Except String CoreReply :=
  match op with
  | CoreOp.canGen cfg uid ts =>
    let r := can_user_generate_video cfg s uid ts
    (r.1, Except.ok (CoreReply.eligibility r.2.1 r.2.2))
  | CoreOp.genVideo env tid now =>
    let r := generate_video env s tid now
    (r.1, r.2.1.map (fun p => CoreReply.genResult p.1 p.2))
  | CoreOp.cancel uid tid now =>
    let r := cancel_task s uid tid now
    (r.1, Except.ok (CoreReply.cancelResult r.2.1 r.2.2))
  | CoreOp.statusMsg uid =>
    (s, Except.ok (CoreReply.statusText (get_task_status_message s uid)))

/-! ## The polling loop (`HeyGenAPI.wait_for_video`,
`src/bot/services/heygen_api.py` lines 153-203)

`get_video_status` returns either `None` (transport problem, already caught
inside that function) or the three-field dictionary below.  The loop checks the
elapsed wall-clock time first, polls, and sleeps `check_interval` seconds on
every branch that does not return.  Time is modelled by the iteration index:
after `k` sleeps the elapsed time is `k * interval`; polling itself is
instantaneous.  `wait_go` carries a fuel argument (an `Option` result of `none`
means the fuel ran out, which the termination theorem rules out) and returns
the iteration index at which the loop exited together with the Python return
value. -/

structure StatusData where
  status : Option String
  video_url : Option String
  error : Option String
deriving Repr, DecidableEq

def wait_go (poll : Nat → Option StatusData) (interval timeout : Nat) :
    Nat → Nat → Option (Nat × Option String)
  | 0, _ => none
  | fuel + 1, k =>
    if timeout < k * interval then some (k, none)
    else
      match poll k with
      | none => wait_go poll interval timeout fuel (k + 1)
      | some status_data =>
        if status_data.status == some "completed" then some (k, status_data.video_url)
        else if status_data.status == some "failed" then some (k, none)
        else wait_go poll interval timeout fuel (k + 1)

/-- Fuel that provably suffices for the loop to reach its exit. -/
def wait_fuel (interval timeout : Nat) : Nat := timeout / interval + 2

/-- Embedding of `HeyGenAPI.wait_for_video`: run the loop from iteration 0. -/
def wait_for_video (poll : Nat → Option StatusData) (interval timeout : Nat) : Option String :=
  match wait_go poll interval timeout (wait_fuel interval timeout) 0 with
  | some r => r.2
  | none => none

/-- A poll outcome is decisive when the provider reported a terminal status;
`None` responses and `pending`/`processing`/unknown statuses make the loop
sleep and retry. -/
def decisivePoll : Option StatusData → Bool
  | none => false
  | some status_data =>
    status_data.status == some "completed" || status_data.status == some "failed"

/-! ## The delivery retrier (`retry_with_backoff`,
`src/bot/handlers/conversation.py` lines 24-61)

Each attempt of the wrapped operation either succeeds, raises a designated
transient transport error (`TimedOut`/`NetworkError`), or raises any other
exception.  `retry_go` is structurally recursive on the number of remaining
loop iterations (`max_retries - attempt`); it also accumulates the total time
slept.  The `Except.error` result models the re-raised exception; `Except.ok
none` models the implicit `None` return when the loop body never runs
(`max_retries = 0`). -/

inductive Outcome (α : Type) where
  | ok (a : α)
  | transientErr (e : String)
  | fatalErr (e : String)
deriving Repr, DecidableEq

def retry_go {α : Type} (f : Nat → Outcome α) :
    Nat → Nat → Nat → Nat → Except String (Option α) × Nat
  | 0, _, _, slept => (Except.ok none, slept)
  | remaining + 1, attempt, delay, slept =>
    match f attempt with
    | Outcome.ok a => (Except.ok (some a), slept)
    | Outcome.fatalErr e => (Except.error e, slept)
    | Outcome.transientErr e =>
      if 0 < remaining then retry_go f remaining (attempt + 1) (delay * 2) (slept + delay)
      else (Except.error e, slept)

/-- Embedding of `retry_with_backoff`: `remaining` starts at `max_retries`,
the attempt counter at 0, the delay at `initial_delay` (seconds; the source's
`2.0` float is the integer 2), nothing slept yet.  The guard `attempt <
max_retries - 1` of the source is `0 < remaining` here. -/
def retry_with_backoff {α : Type} (f : Nat → Outcome α)
    (max_retries initial_delay : Nat) : Except String (Option α) × Nat :=
  retry_go f max_retries 0 initial_delay 0

/-! ## Input validation and character-reference classification
(`src/bot/utils/validators.py` and `src/bot/handlers/conversation.py`)

Python's `re.match` with a pattern ending in `$` also accepts a match that
stops just before a single trailing newline, so both regexes are embedded with
that quirk.  The call sites strip the token before validating and classifying
it, which the theorems record as a no-newline hypothesis. -/

/-- Character class `[0-9a-f]` of the talking-photo pattern. -/
def isLowerHexChar (c : Char) : Bool := c.isDigit || ('a' ≤ c && c ≤ 'f')

/-- A string of exactly 32 lowercase hexadecimal characters. -/
def isHex32 (s : String) : Bool := s.length == 32 && s.data.all isLowerHexChar

/-- Embedding of `re.match(r'^[0-9a-f]{32}$', s)` (as a boolean), including
the trailing-newline quirk of `$`. -/
def re_match_hex32 (s : String) : Bool :=
  isHex32 s ||
    (match s.data.getLast? with
     | some c => c == '\n' && isHex32 (String.mk s.data.dropLast)
     | none => false)

/-- Character class `[a-zA-Z0-9_-]` of `validate_avatar_id` /
`validate_voice_id`. -/
def isTokenChar (c : Char) : Bool := c.isAlphanum || c == '_' || c == '-'

/-- Embedding of `re.match(r'^[a-zA-Z0-9_-]+$', s)` (as a boolean), including
the trailing-newline quirk of `$`. -/
def re_match_token (s : String) : Bool :=
  (!s.data.isEmpty && s.data.all isTokenChar) ||
    (match s.data.getLast? with
     | some c => c == '\n' && !s.data.dropLast.isEmpty && s.data.dropLast.all isTokenChar
     | none => false)

/-- Embedding of `validate_avatar_id` (`src/bot/utils/validators.py` lines
7-27).  Python's `not avatar_id or not avatar_id.strip()` is true exactly when
the string is empty or consists of whitespace only. -/
def validate_avatar_id (s : String) : Bool × Option String :=
  if s == "" || s.data.all Char.isWhitespace then (false, some "ID аватара не может быть пустым")
  else if !re_match_token s then
    (false, some "ID аватара содержит недопустимые символы. Используйте только буквы, цифры, дефисы и подчеркивания.")
  else if 100 < s.length then (false, some "ID аватара слишком длинный")
  else (true, none)

/-- Embedding of the classification step of `receive_avatar_id` and
`process_single_message` (`src/bot/handlers/conversation.py` lines 95-104 and
295-299): a token matching the 32-hex pattern is stored with the
`talking_photo:` tag, anything else is stored verbatim as an avatar id. -/
def classify_avatar_input (s : String) : String :=
  if re_match_hex32 s then "talking_photo:" ++ s else s

/-- The kind later recovered from the stored field by
`VideoService.generate_video` (`task.avatar_id.startswith("talking_photo:")`).
The prefix test is embedded on the character list. -/
def stored_character_kind (stored : String) : String :=
  if "talking_photo:".data.isPrefixOf stored.data then "talking_photo" else "avatar"

/-! ## Helper lemmas about `update_task_status` -/

theorem applyUpd_task_id (st : String) (hv vu em : Option String) (now : Nat) (t : VideoTask) :
    (applyUpd st hv vu em now t).task_id = t.task_id := rfl

theorem applyUpd_status (st : String) (hv vu em : Option String) (now : Nat) (t : VideoTask) :
    (applyUpd st hv vu em now t).status = st := rfl

theorem update_task_status_tasks (s : DBState) (tid : Nat) (st : String)
    (hv vu em : Option String) (now : Nat) :
    (update_task_status s tid st hv vu em now).1.tasks =
      s.tasks.map (fun u => if u.task_id == tid then applyUpd st hv vu em now u else u) := by
  unfold update_task_status
  cases hf : s.tasks.find? (fun t => t.task_id == tid) with
  | none =>
    have hid : ∀ u ∈ s.tasks,
        (if u.task_id == tid then applyUpd st hv vu em now u else u) = u := by
      intro u hu
      have := List.find?_eq_none.1 hf u hu
      simp_all
    simp only
    rw [List.map_congr_left hid]
    simp
  | some t => rfl

theorem update_task_status_users (s : DBState) (tid : Nat) (st : String)
    (hv vu em : Option String) (now : Nat) :
    (update_task_status s tid st hv vu em now).1.users = s.users := by
  unfold update_task_status
  cases hf : s.tasks.find? (fun t => t.task_id == tid) <;> rfl

theorem update_task_status_next (s : DBState) (tid : Nat) (st : String)
    (hv vu em : Option String) (now : Nat) :
    (update_task_status s tid st hv vu em now).1.next_task_id = s.next_task_id := by
  unfold update_task_status
  cases hf : s.tasks.find? (fun t => t.task_id == tid) <;> rfl

theorem update_task_status_not_found (s : DBState) (tid : Nat) (st : String)
    (hv vu em : Option String) (now : Nat)
    (h : s.tasks.find? (fun t => t.task_id == tid) = none) :
    update_task_status s tid st hv vu em now = (s, none) := by
  unfold update_task_status
  rw [h]

theorem get_task_by_id_update (s : DBState) (tid : Nat) (st : String)
    (hv vu em : Option String) (now : Nat) :
    get_task_by_id (update_task_status s tid st hv vu em now).1 tid =
      (get_task_by_id s tid).map (applyUpd st hv vu em now) := by
  unfold get_task_by_id
  rw [update_task_status_tasks, List.find?_map]
  have hcomp : ((fun t : VideoTask => t.task_id == tid) ∘
      (fun u => if u.task_id == tid then applyUpd st hv vu em now u else u))
      = fun t : VideoTask => t.task_id == tid := by
    funext u
    by_cases h : u.task_id == tid <;> simp [Function.comp, h, applyUpd]
  rw [hcomp]
  cases hf : s.tasks.find? (fun t : VideoTask => t.task_id == tid) with
  | none => rfl
  | some t =>
    have hp := List.find?_some hf
    simp only [Option.map_some']
    rw [if_pos hp]

/-- Python truthiness spelled in the claim's vocabulary. -/
theorem ite_truthy (o keep : Option String) :
    (if truthyStr o then o else keep) = (if o = none ∨ o = some "" then keep else o) := by
  cases o with
  | none => simp [truthyStr]
  | some s => by_cases h : s = "" <;> simp [truthyStr, h]

/-- C10. Status-update frame property: `update_task_status` changes only the
selected row; on that row the status is overwritten, each optional column keeps
its previous value exactly when the argument is omitted (`none`) or the empty
string, `completed_at` is written only when the new status is `"completed"`,
all other columns and rows are untouched, and an unknown `task_id` returns
`none` and leaves the whole state unchanged. -/
theorem update_task_status_frame (s : DBState) (tid : Nat) (st : String)
    (hv vu em : Option String) (now : Nat) :
    (s.tasks.find? (fun t => t.task_id == tid) = none →
      update_task_status s tid st hv vu em now = (s, none)) ∧
    (update_task_status s tid st hv vu em now).1.users = s.users ∧
    (update_task_status s tid st hv vu em now).1.next_task_id = s.next_task_id ∧
    (update_task_status s tid st hv vu em now).1.tasks.length = s.tasks.length ∧
    (∀ (i : Nat) (u : VideoTask), s.tasks[i]? = some u →
      (u.task_id ≠ tid → (update_task_status s tid st hv vu em now).1.tasks[i]? = some u) ∧
      (u.task_id = tid → (update_task_status s tid st hv vu em now).1.tasks[i]? =
        some { u with
          status := st
          heygen_video_id := if hv = none ∨ hv = some "" then u.heygen_video_id else hv
          video_url := if vu = none ∨ vu = some "" then u.video_url else vu
          error_message := if em = none ∨ em = some "" then u.error_message else em
          completed_at := if st = "completed" then some now else u.completed_at })) := by
  refine ⟨update_task_status_not_found s tid st hv vu em now,
    update_task_status_users s tid st hv vu em now,
    update_task_status_next s tid st hv vu em now, ?_, ?_⟩
  · rw [update_task_status_tasks]
    exact List.length_map _ _
  · intro i u hu
    constructor
    · intro hne
      rw [update_task_status_tasks, List.getElem?_map, hu]
      have hb : (u.task_id == tid) = false := by simpa using hne
      rw [Option.map_some']
      rw [if_neg (by simp [hb])]
    · intro heq
      rw [update_task_status_tasks, List.getElem?_map, hu]
      have : (u.task_id == tid) = true := by simpa using heq
      simp only [Option.map_some', this, if_true]
      congr 1
      unfold applyUpd
      rw [ite_truthy hv, ite_truthy vu, ite_truthy em]
      by_cases hc : st = "completed" <;> simp [hc]

/-! Demonstration states used by the concrete witness instances. -/

def demoTask (i uid : Nat) (st : String) : VideoTask :=
  { task_id := i, user_id := uid, heygen_video_id := none, avatar_id := "avatar_123abc"
    voice_id := "voice_456def", input_text := "hello", status := st, created_at := 0
    completed_at := none, video_url := none, error_message := none }

def demoPendingS : DBState := ⟨[], [demoTask 1 7 "pending"], 2⟩

/-- Witness for C10 at a concrete state: a `completed` update on the only row
overwrites the status, stamps `completed_at`, and keeps the omitted optional
columns. -/
theorem update_task_status_frame_witness :
    demoPendingS.tasks[0]? = some (demoTask 1 7 "pending") ∧
    (update_task_status demoPendingS 1 "completed" none none none 5).1.tasks[0]? =
      some { demoTask 1 7 "pending" with status := "completed", completed_at := some 5 } := by
  refine ⟨rfl, ?_⟩
  have h := ((update_task_status_frame demoPendingS 1 "completed" none none none 5).2.2.2.2
    0 (demoTask 1 7 "pending") rfl).2 rfl
  simpa using h

/-- C1. Quota eligibility check: the check never mutates the repository state;
if the user owns at least `MAX_CONCURRENT_TASKS` tasks with status in
`{pending, processing}` it refuses with the concurrency reason; independently,
if the daily count reaches `MAX_DAILY_REQUESTS` it refuses (with the quota
reason whenever the concurrency check passed); otherwise it grants
eligibility. -/
theorem can_user_generate_video_spec (cfg : Config) (s : DBState) (uid ts : Nat) :
    (can_user_generate_video cfg s uid ts).1 = s ∧
    (cfg.max_concurrent_tasks ≤ get_user_active_tasks_count s uid →
      (can_user_generate_video cfg s uid ts).2 =
        (false, concurrencyReason (get_user_active_tasks_count s uid) cfg.max_concurrent_tasks)) ∧
    (cfg.max_daily_requests ≤ get_user_daily_requests s uid ts →
      (can_user_generate_video cfg s uid ts).2.1 = false) ∧
    (get_user_active_tasks_count s uid < cfg.max_concurrent_tasks →
      cfg.max_daily_requests ≤ get_user_daily_requests s uid ts →
      (can_user_generate_video cfg s uid ts).2 = (false, dailyReason cfg.max_daily_requests)) ∧
    (get_user_active_tasks_count s uid < cfg.max_concurrent_tasks →
      get_user_daily_requests s uid ts < cfg.max_daily_requests →
      (can_user_generate_video cfg s uid ts).2 = (true, "")) := by
  simp only [can_user_generate_video]
  split_ifs with h1 h2 <;>
    refine ⟨rfl, ?_, ?_, ?_, ?_⟩ <;> intros <;> first | rfl | omega

def demoBusyS : DBState :=
  ⟨[], [demoTask 1 7 "pending", demoTask 2 7 "pending", demoTask 3 7 "processing"], 4⟩

/-- Witness for C1: a user with three active tasks is refused with the
concurrency reason under the default limit of 3. -/
theorem can_user_generate_video_spec_witness :
    (can_user_generate_video defaultConfig demoBusyS 7 0).2 = (false, concurrencyReason 3 3) := by
  have h := (can_user_generate_video_spec defaultConfig demoBusyS 7 0).2.1 (by decide)
  have e : get_user_active_tasks_count demoBusyS 7 = 3 := rfl
  rw [e] at h
  exact h

/-! ## The delivery retrier: claim C6 -/

/-- The retrier consults the operation only on the attempts the loop actually
runs, i.e. attempt indices below the remaining budget. -/
theorem retry_go_congr {α : Type} (f g : Nat → Outcome α) :
    ∀ (rem att d sl : Nat), (∀ i, att ≤ i → i < att + rem → f i = g i) →
      retry_go f rem att d sl = retry_go g rem att d sl := by
  intro rem
  induction rem with
  | zero => intro att d sl _; rfl
  | succ n ih =>
    intro att d sl h
    unfold retry_go
    rw [h att (Nat.le_refl _) (by omega)]
    cases g att with
    | ok a => rfl
    | fatalErr e => rfl
    | transientErr e =>
      dsimp only
      by_cases hn : 0 < n
      · rw [if_pos hn, if_pos hn]
        exact ih (att + 1) _ _ (fun i h1 h2 => h i (by omega) (by omega))
      · rw [if_neg hn, if_neg hn]

/-- C6. Delivery retrier with `maxAttempts = 4`, `initialDelay = 2`: the
operation is consulted at most 4 times; three transient failures followed by a
success yield that success with a total sleep of 2+4+8 = 14 seconds; a
non-transient error propagates from the first attempt with no sleep; four
transient failures propagate the last error after the same 14 seconds of
sleeping. -/
theorem retry_with_backoff_spec {α : Type} (f g : Nat → Outcome α) (a : α)
    (e0 e1 e2 e3 : String) :
    ((∀ i, i < 4 → f i = g i) → retry_with_backoff f 4 2 = retry_with_backoff g 4 2) ∧
    (f 0 = Outcome.transientErr e0 → f 1 = Outcome.transientErr e1 →
      f 2 = Outcome.transientErr e2 → f 3 = Outcome.ok a →
      retry_with_backoff f 4 2 = (Except.ok (some a), 14)) ∧
    (f 0 = Outcome.fatalErr e0 → retry_with_backoff f 4 2 = (Except.error e0, 0)) ∧
    (f 0 = Outcome.transientErr e0 → f 1 = Outcome.transientErr e1 →
      f 2 = Outcome.transientErr e2 → f 3 = Outcome.transientErr e3 →
      retry_with_backoff f 4 2 = (Except.error e3, 14)) := by
  refine ⟨?_, ?_, ?_, ?_⟩
  · intro h
    exact retry_go_congr f g 4 0 2 0 (fun i _ h2 => h i (by omega))
  · intro h0 h1 h2 h3
    simp [retry_with_backoff, retry_go, h0, h1, h2, h3]
  · intro h0
    simp [retry_with_backoff, retry_go, h0]
  · intro h0 h1 h2 h3
    simp [retry_with_backoff, retry_go, h0, h1, h2, h3]

/-- Witness for C6: three concrete transient failures, then success on the
fourth attempt, sleeping 14 seconds in total. -/
theorem retry_with_backoff_spec_witness :
    retry_with_backoff (fun i => if i == 3 then Outcome.ok 7 else Outcome.transientErr "net") 4 2 =
      (Except.ok (some 7), 14) :=
  (retry_with_backoff_spec (fun i => if i == 3 then Outcome.ok 7 else Outcome.transientErr "net")
    (fun i => if i == 3 then Outcome.ok 7 else Outcome.transientErr "net")
    7 "net" "net" "net" "net").2.1 rfl rfl rfl rfl

/-! ## Character-reference classification: claim C8 -/

/-- On a token without a newline the trailing-newline quirk of `$` is inert:
the 32-hex pattern matches exactly when `isHex32` holds. -/
theorem re_match_hex32_of_no_newline (s : String) (h : '\n' ∉ s.data) :
    re_match_hex32 s = isHex32 s := by
  unfold re_match_hex32
  cases hl : s.data.getLast? with
  | none => simp
  | some c =>
    have hc : c ∈ s.data := List.mem_of_mem_getLast? (Option.mem_def.2 hl)
    have hcne : (c == '\n') = false := beq_eq_false_iff_ne.2 (fun hce => h (hce ▸ hc))
    simp [hcne]

/-- Same fact for the `[a-zA-Z0-9_-]+` token pattern. -/
theorem re_match_token_of_no_newline (s : String) (h : '\n' ∉ s.data) :
    re_match_token s = (!s.data.isEmpty && s.data.all isTokenChar) := by
  unfold re_match_token
  cases hl : s.data.getLast? with
  | none => simp
  | some c =>
    have hc : c ∈ s.data := List.mem_of_mem_getLast? (Option.mem_def.2 hl)
    have hcne : (c == '\n') = false := beq_eq_false_iff_ne.2 (fun hce => h (hce ▸ hc))
    simp [hcne]

/-- A token accepted by `validate_avatar_id` passed the token regex. -/
theorem validated_token (s : String) (hval : (validate_avatar_id s).1 = true) :
    re_match_token s = true := by
  unfold validate_avatar_id at hval
  by_cases h1 : (s == "" || s.data.all Char.isWhitespace) = true
  · rw [if_pos h1] at hval
    exact absurd hval (by simp)
  · rw [if_neg h1] at hval
    by_cases h2 : (!re_match_token s) = true
    · rw [if_pos h2] at hval
      exact absurd hval (by simp)
    · simpa using h2

/-- A token accepted by `validate_avatar_id` contains no colon. -/
theorem validated_no_colon (s : String) (hval : (validate_avatar_id s).1 = true)
    (hnl : '\n' ∉ s.data) : ':' ∉ s.data := by
  intro hcolon
  have htok := validated_token s hval
  rw [re_match_token_of_no_newline s hnl] at htok
  have hall : s.data.all isTokenChar = true := ((Bool.and_eq_true _ _) ▸ htok).2
  have := List.all_eq_true.1 hall ':' hcolon
  exact absurd this (by decide)

/-- C8. Character-reference classification at the task-creation boundary: a
validated, stripped token is stored with the `talking_photo:` tag (and later
read back as kind `talking_photo`) exactly when it consists of exactly 32
lowercase hexadecimal characters; anything else is stored verbatim and read
back as kind `avatar`.  The two concrete examples of the spec are included. -/
theorem classification_spec :
    (∀ s : String, (validate_avatar_id s).1 = true → '\n' ∉ s.data →
      ((classify_avatar_input s = "talking_photo:" ++ s ↔ isHex32 s = true) ∧
       (stored_character_kind (classify_avatar_input s) = "talking_photo" ↔ isHex32 s = true) ∧
       (isHex32 s = true ↔ s.length = 32 ∧ ∀ c ∈ s.data, isLowerHexChar c = true))) ∧
    classify_avatar_input "a1b2c3d4e5f6a1b2c3d4e5f6a1b2c3d4" =
      "talking_photo:" ++ "a1b2c3d4e5f6a1b2c3d4e5f6a1b2c3d4" ∧
    stored_character_kind (classify_avatar_input "a1b2c3d4e5f6a1b2c3d4e5f6a1b2c3d4") =
      "talking_photo" ∧
    classify_avatar_input "avatar_123abc" = "avatar_123abc" ∧
    stored_character_kind (classify_avatar_input "avatar_123abc") = "avatar" := by
  refine ⟨?_, by decide, by decide, by decide, by decide⟩
  intro s hval hnl
  have hre : re_match_hex32 s = isHex32 s := re_match_hex32_of_no_newline s hnl
  have hcolon : ':' ∉ s.data := validated_no_colon s hval hnl
  refine ⟨?_, ?_, ?_⟩
  · unfold classify_avatar_input
    rw [hre]
    by_cases hh : isHex32 s = true
    · rw [if_pos hh]
      simp [hh]
    · rw [if_neg hh]
      simp only [hh, Bool.false_eq_true, iff_false]
      intro heq
      have hlen := congrArg String.length heq
      rw [String.length_append] at hlen
      have h14 : "talking_photo:".length = 14 := by decide
      omega
  · unfold classify_avatar_input
    rw [hre]
    by_cases hh : isHex32 s = true
    · rw [if_pos hh]
      unfold stored_character_kind
      rw [String.data_append,
        if_pos (List.isPrefixOf_iff_prefix.2 (List.prefix_append _ _))]
      simp [hh]
    · rw [if_neg hh]
      simp only [hh, Bool.false_eq_true, iff_false]
      unfold stored_character_kind
      have hpre : ¬ ("talking_photo:".data.isPrefixOf s.data = true) := by
        intro hp
        have hsub := (List.isPrefixOf_iff_prefix.1 hp).subset
        exact hcolon (hsub (by decide))
      rw [if_neg hpre]
      decide
  · simp [isHex32, List.all_eq_true]

/-- Witness for C8: the concrete hexadecimal example satisfies the validated,
newline-free hypotheses and classifies as a talking photo. -/
theorem classification_spec_witness :
    stored_character_kind (classify_avatar_input "a1b2c3d4e5f6a1b2c3d4e5f6a1b2c3d4") =
      "talking_photo" :=
  ((classification_spec.1 "a1b2c3d4e5f6a1b2c3d4e5f6a1b2c3d4" (by decide) (by decide)).2.1).mpr
    (by decide)

/-! ## The polling loop: claim C5 -/

theorem wait_go_exit (poll : Nat → Option StatusData) (interval timeout f k : Nat)
    (hk : timeout < k * interval) :
    wait_go poll interval timeout (f + 1) k = some (k, none) := by
  simp only [wait_go]
  rw [if_pos hk]

theorem wait_go_step (poll : Nat → Option StatusData) (interval timeout f k : Nat)
    (hk : ¬ timeout < k * interval) (hd : decisivePoll (poll k) = false) :
    wait_go poll interval timeout (f + 1) k = wait_go poll interval timeout f (k + 1) := by
  simp only [wait_go]
  rw [if_neg hk]
  cases hp : poll k with
  | none => rfl
  | some sd =>
    unfold decisivePoll at hd
    rw [hp] at hd
    rw [Bool.or_eq_false_iff] at hd
    dsimp only
    rw [if_neg (by simp [hd.1]), if_neg (by simp [hd.2])]

theorem wait_go_completed (poll : Nat → Option StatusData) (interval timeout f k : Nat)
    (sd : StatusData) (hk : ¬ timeout < k * interval) (hp : poll k = some sd)
    (hc : sd.status = some "completed") :
    wait_go poll interval timeout (f + 1) k = some (k, sd.video_url) := by
  simp only [wait_go]
  rw [if_neg hk, hp]
  simp [hc]

theorem wait_go_failed (poll : Nat → Option StatusData) (interval timeout f k : Nat)
    (sd : StatusData) (hk : ¬ timeout < k * interval) (hp : poll k = some sd)
    (hc : sd.status = some "failed") :
    wait_go poll interval timeout (f + 1) k = some (k, none) := by
  simp only [wait_go]
  rw [if_neg hk, hp]
  simp [hc]

/-- Skipping over a block of indecisive, in-budget polls. -/
theorem wait_go_skipN (poll : Nat → Option StatusData) (interval timeout : Nat) :
    ∀ (n k f : Nat),
      (∀ j, k ≤ j → j < k + n → ¬ timeout < j * interval ∧ decisivePoll (poll j) = false) →
      n < f →
      wait_go poll interval timeout f k = wait_go poll interval timeout (f - n) (k + n) := by
  intro n
  induction n with
  | zero => intro k f _ _; simp
  | succ m ih =>
    intro k f h hf
    obtain ⟨g, rfl⟩ : ∃ g, f = g + 1 := ⟨f - 1, by omega⟩
    have h0 := h k (Nat.le_refl _) (by omega)
    rw [wait_go_step poll interval timeout g k h0.1 h0.2]
    have hrec := ih (k + 1) g (fun j h1 h2 => h j (by omega) (by omega)) (by omega)
    have e1 : g + 1 - (m + 1) = g - m := by omega
    have e2 : k + (m + 1) = k + 1 + m := by omega
    rw [e1, e2]
    exact hrec

/-- With the fuel bound of `wait_fuel` the loop always reaches an exit, at an
iteration whose elapsed wall-clock time is at most `timeout + interval`. -/
theorem wait_go_total (poll : Nat → Option StatusData) (interval timeout : Nat) :
    ∀ (f k : Nat), (k = 0 ∨ (k - 1) * interval ≤ timeout) →
      timeout < (k + f - 1) * interval →
      ∃ kr r, wait_go poll interval timeout f k = some (kr, r) ∧
        kr * interval ≤ timeout + interval := by
  intro f
  induction f with
  | zero =>
    intro k hpre hfu
    rcases hpre with h0 | hle
    · subst h0
      have e : (0 + 0 - 1) * interval = 0 := by norm_num
      rw [e] at hfu
      omega
    · have e : k + 0 - 1 = k - 1 := by omega
      rw [e] at hfu
      exact absurd hfu (not_lt.2 hle)
  | succ m ih =>
    intro k hpre hfu
    by_cases hk : timeout < k * interval
    · refine ⟨k, none, wait_go_exit poll interval timeout m k hk, ?_⟩
      by_cases k0 : k = 0
      · subst k0; simp
      · rcases hpre with h0 | hle
        · exact absurd h0 k0
        · have hk1 : k = (k - 1) + 1 := by omega
          calc k * interval = (k - 1) * interval + interval := by
                conv_lhs => rw [hk1]
                rw [Nat.succ_mul]
            _ ≤ timeout + interval := Nat.add_le_add_right hle _
    · cases hp : decisivePoll (poll k) with
      | false =>
        rw [wait_go_step poll interval timeout m k hk hp]
        apply ih (k + 1)
        · right
          simpa using not_lt.1 hk
        · have e : k + 1 + m - 1 = k + (m + 1) - 1 := by omega
          rw [e]
          exact hfu
      | true =>
        cases hpoll : poll k with
        | none =>
          rw [hpoll] at hp
          simp [decisivePoll] at hp
        | some sd =>
          rw [hpoll] at hp
          unfold decisivePoll at hp
          by_cases hc : (sd.status == some "completed") = true
          · exact ⟨k, sd.video_url,
              wait_go_completed poll interval timeout m k sd hk hpoll (eq_of_beq hc),
              le_trans (not_lt.1 hk) (Nat.le_add_right _ _)⟩
          · have hf2 : (sd.status == some "failed") = true := by
              rcases (Bool.or_eq_true _ _) ▸ hp with h | h
              · exact absurd h hc
              · exact h
            exact ⟨k, none,
              wait_go_failed poll interval timeout m k sd hk hpoll (eq_of_beq hf2),
              le_trans (not_lt.1 hk) (Nat.le_add_right _ _)⟩

/-- The first iteration index past the budget. -/
theorem budget_exceeded (interval timeout : Nat) (hi : 0 < interval) :
    timeout < (timeout / interval + 1) * interval := by
  have h1 := Nat.div_add_mod timeout interval
  have h2 := Nat.mod_lt timeout hi
  calc timeout = interval * (timeout / interval) + timeout % interval := h1.symm
    _ < interval * (timeout / interval) + interval := by omega
    _ = (timeout / interval + 1) * interval := by ring

/-- C5. Polling-loop bounded termination: with a positive poll interval the
loop always exits, after at most `timeout + interval` of modelled wall-clock
time; the first decisive poll inside the budget determines the result (asset
URL on `completed`, `None` on `failed`); if every poll inside the budget is
indecisive — arbitrarily many transient failures included — the loop returns
`None` once the elapsed time exceeds the timeout. -/
theorem wait_for_video_spec (poll : Nat → Option StatusData) (interval timeout : Nat)
    (hi : 0 < interval) :
    (∃ kr r, wait_go poll interval timeout (wait_fuel interval timeout) 0 = some (kr, r) ∧
      kr * interval ≤ timeout + interval) ∧
    (∀ (k : Nat) (sd : StatusData), (∀ j, j < k → decisivePoll (poll j) = false) →
      k * interval ≤ timeout → poll k = some sd →
      ((sd.status = some "completed" → wait_for_video poll interval timeout = sd.video_url) ∧
       (sd.status = some "failed" → wait_for_video poll interval timeout = none))) ∧
    ((∀ j, j * interval ≤ timeout → decisivePoll (poll j) = false) →
      wait_for_video poll interval timeout = none) := by
  refine ⟨?_, ?_, ?_⟩
  · apply wait_go_total poll interval timeout (wait_fuel interval timeout) 0 (Or.inl rfl)
    have e : 0 + wait_fuel interval timeout - 1 = timeout / interval + 1 := by
      unfold wait_fuel
      generalize timeout / interval = q
      omega
    rw [e]
    exact budget_exceeded interval timeout hi
  · intro k sd hprev hk hp
    have hkd : k ≤ timeout / interval := (Nat.le_div_iff_mul_le hi).2 hk
    have hsk := wait_go_skipN poll interval timeout k 0 (wait_fuel interval timeout)
      (fun j h1 h2 => ⟨not_lt.2 (le_trans (Nat.mul_le_mul_right _ (by omega)) hk),
        hprev j (by omega)⟩)
      (by unfold wait_fuel; omega)
    have hFk : wait_fuel interval timeout - k = (wait_fuel interval timeout - k - 1) + 1 := by
      unfold wait_fuel; omega
    constructor
    · intro hc
      have hval : wait_go poll interval timeout (wait_fuel interval timeout) 0 =
          some (k, sd.video_url) := by
        rw [hsk, hFk]
        simpa using wait_go_completed poll interval timeout _ k sd (not_lt.2 hk) hp hc
      unfold wait_for_video
      rw [hval]
    · intro hc
      have hval : wait_go poll interval timeout (wait_fuel interval timeout) 0 =
          some (k, none) := by
        rw [hsk, hFk]
        simpa using wait_go_failed poll interval timeout _ k sd (not_lt.2 hk) hp hc
      unfold wait_for_video
      rw [hval]
  · intro hall
    have hsk := wait_go_skipN poll interval timeout (timeout / interval + 1) 0
      (wait_fuel interval timeout)
      (fun j h1 h2 => by
        have hj : j ≤ timeout / interval := by omega
        have hjb : j * interval ≤ timeout :=
          le_trans (Nat.mul_le_mul_right _ hj) (Nat.div_mul_le_self _ _)
        exact ⟨not_lt.2 hjb, hall j hjb⟩)
      (by unfold wait_fuel; omega)
    have hF1 : wait_fuel interval timeout - (timeout / interval + 1) = 1 := by
      unfold wait_fuel
      generalize timeout / interval = q
      omega
    have hval : wait_go poll interval timeout (wait_fuel interval timeout) 0 =
        some (timeout / interval + 1, none) := by
      rw [hsk, hF1]
      have := wait_go_exit poll interval timeout 0 (timeout / interval + 1)
        (budget_exceeded interval timeout hi)
      simpa using this
    unfold wait_for_video
    rw [hval]

/-- Witness for C5: every poll fails transiently, interval 15s, timeout 600s —
the loop still terminates and returns `None`. -/
theorem wait_for_video_spec_witness :
    wait_for_video (fun _ => none) 15 600 = none :=
  (wait_for_video_spec (fun _ => none) 15 600 (by decide)).2.2 (fun j _ => rfl)

/-! ## Bulk cancellation: claim C4 -/

/-- The record change a cancellation writes to a row. -/
def cancelMark (u : VideoTask) : VideoTask :=
  { u with status := "failed", error_message := some cancelDetail }

theorem applyUpd_cancel (now : Nat) (u : VideoTask) :
    applyUpd "failed" none none (some cancelDetail) now u = cancelMark u := by
  unfold applyUpd cancelMark
  have h1 : truthyStr (some cancelDetail) = true := rfl
  have h2 : truthyStr none = false := rfl
  have h3 : ("failed" == "completed") = false := rfl
  simp only [h1, h2, h3, if_true, if_false, Bool.false_eq_true]

theorem cancelMark_task_id (u : VideoTask) : (cancelMark u).task_id = u.task_id := rfl

theorem cancelMark_idem (u : VideoTask) : cancelMark (cancelMark u) = cancelMark u := rfl

/-- Folding the per-task status update over a list of task rows marks exactly
the rows whose id occurs in the list. -/
theorem cancel_fold_tasks (now : Nat) :
    ∀ (L : List VideoTask) (s : DBState),
      (L.foldl (fun acc t =>
        (update_task_status acc t.task_id "failed" none none (some cancelDetail) now).1) s).tasks
        = s.tasks.map (fun u =>
            if L.any (fun t => u.task_id == t.task_id) then cancelMark u else u) := by
  intro L
  induction L with
  | nil => intro s; simp
  | cons t L ih =>
    intro s
    rw [List.foldl_cons, ih, update_task_status_tasks, List.map_map]
    apply List.map_congr_left
    intro u _
    simp only [Function.comp, List.any_cons]
    by_cases h1 : (u.task_id == t.task_id) = true
    · rw [if_pos h1, applyUpd_cancel]
      have hrhs : (u.task_id == t.task_id || L.any fun x => u.task_id == x.task_id) = true := by
        simp [h1]
      rw [if_pos hrhs]
      by_cases h2 : (L.any fun x => (cancelMark u).task_id == x.task_id) = true
      · rw [if_pos h2, cancelMark_idem]
      · rw [if_neg h2]
    · rw [if_neg h1]
      simp [h1]

theorem cancel_fold_users (now : Nat) :
    ∀ (L : List VideoTask) (s : DBState),
      (L.foldl (fun acc t =>
        (update_task_status acc t.task_id "failed" none none (some cancelDetail) now).1) s).users
        = s.users := by
  intro L
  induction L with
  | nil => intro s; rfl
  | cons t L ih =>
    intro s
    rw [List.foldl_cons, ih, update_task_status_users]

theorem cancel_fold_next (now : Nat) :
    ∀ (L : List VideoTask) (s : DBState),
      (L.foldl (fun acc t =>
        (update_task_status acc t.task_id "failed" none none (some cancelDetail) now).1) s).next_task_id
        = s.next_task_id := by
  intro L
  induction L with
  | nil => intro s; rfl
  | cons t L ih =>
    intro s
    rw [List.foldl_cons, ih, update_task_status_next]

/-- C4. Bulk cancel: with no task id, `cancel_task` reports failure and leaves
the state unchanged when the user has no active task; otherwise it moves
exactly the user's pending/processing rows to `failed` with the
cancelled-by-user detail, leaves every other row (and the users table)
unchanged, and reports the count of cancelled tasks. -/
theorem cancel_task_bulk_spec (s : DBState) (uid now : Nat)
    (hnd : (s.tasks.map (fun t => t.task_id)).Nodup) :
    (get_user_active_tasks s uid = [] →
      cancel_task s uid none now = (s, false, "У вас нет активных задач для отмены.")) ∧
    (get_user_active_tasks s uid ≠ [] →
      (cancel_task s uid none now).2 =
        (true, "Отменено задач: " ++ toString (get_user_active_tasks s uid).length ++ ".") ∧
      (cancel_task s uid none now).1.tasks =
        s.tasks.map (fun u => if u.user_id == uid && isActiveTask u then cancelMark u else u) ∧
      (cancel_task s uid none now).1.users = s.users ∧
      (cancel_task s uid none now).1.next_task_id = s.next_task_id) := by
  have hcond : ∀ u ∈ s.tasks,
      ((get_user_active_tasks s uid).any (fun t => u.task_id == t.task_id))
        = (u.user_id == uid && isActiveTask u) := by
    intro u hu
    cases hrhs : (u.user_id == uid && isActiveTask u) with
    | true =>
      apply List.any_eq_true.2
      exact ⟨u, List.mem_filter.2 ⟨hu, hrhs⟩, by simp⟩
    | false =>
      cases hlhs : (get_user_active_tasks s uid).any (fun t => u.task_id == t.task_id) with
      | false => rfl
      | true =>
        obtain ⟨t, htmem, hbeq⟩ := List.any_eq_true.1 hlhs
        obtain ⟨hts, htp⟩ := List.mem_filter.1 htmem
        have heq : u = t :=
          List.inj_on_of_nodup_map hnd hu hts (eq_of_beq hbeq)
        rw [heq, htp] at hrhs
        exact hrhs
  constructor
  · intro hempty
    unfold cancel_task
    rw [if_neg (by simp [truthyNat])]
    rw [hempty]
    rfl
  · intro hne
    have hcases : (get_user_active_tasks s uid).isEmpty = false := by
      cases h : (get_user_active_tasks s uid).isEmpty with
      | false => rfl
      | true => exact absurd (List.isEmpty_iff.1 h) hne
    refine ⟨?_, ?_, ?_, ?_⟩
    · unfold cancel_task
      rw [if_neg (by simp [truthyNat]), if_neg (by simp [hcases])]
    · unfold cancel_task
      rw [if_neg (by simp [truthyNat]), if_neg (by simp [hcases])]
      simp only
      rw [cancel_fold_tasks]
      apply List.map_congr_left
      intro u hu
      rw [hcond u hu]
    · unfold cancel_task
      rw [if_neg (by simp [truthyNat]), if_neg (by simp [hcases])]
      simp only
      rw [cancel_fold_users]
    · unfold cancel_task
      rw [if_neg (by simp [truthyNat]), if_neg (by simp [hcases])]
      simp only
      rw [cancel_fold_next]

def demoCancelS : DBState :=
  ⟨[], [demoTask 1 7 "pending", demoTask 2 7 "processing", demoTask 3 7 "completed"], 4⟩

/-- Witness for C4: with 2 active tasks and 1 completed task, bulk cancel
moves exactly the two active tasks to `failed` with the cancelled-by-user
detail, leaves the completed task untouched and reports count 2. -/
theorem cancel_task_bulk_spec_witness :
    (cancel_task demoCancelS 7 none 9).2 = (true, "Отменено задач: 2.") ∧
    (cancel_task demoCancelS 7 none 9).1.tasks =
      [cancelMark (demoTask 1 7 "pending"), cancelMark (demoTask 2 7 "processing"),
        demoTask 3 7 "completed"] := by
  have h := (cancel_task_bulk_spec demoCancelS 7 9 (by decide)).2 (by decide)
  refine ⟨h.1.trans (by decide), h.2.1.trans (by decide)⟩

/-! ## Case analysis of a `generate_video` run -/

theorem get_task_by_id_increment (s : DBState) (uid now tid : Nat) :
    get_task_by_id (increment_user_videos s uid now) tid = get_task_by_id s tid := rfl

/-- Exhaustive description of the five code paths of `generate_video` on an
existing task: submission exception, submission without a render id,
polling exception, polling without an asset URL, and success. -/
theorem generate_video_cases (env : Env) (s : DBState) (tid now : Nat) (t0 : VideoTask)
    (hget : get_task_by_id s tid = some t0) :
    (∃ e, env.submit = Except.error e ∧
      generate_video env s tid now =
        ((update_task_status s tid "failed" none none (some e) now).1,
          Except.ok (false, some genericErrorReply), ⟨[(tid, "failed")], 1, 0⟩)) ∨
    (∃ v, env.submit = Except.ok v ∧ truthyStr v = false ∧
      generate_video env s tid now =
        ((update_task_status s tid "failed" none none (some submitFailDetail) now).1,
          Except.ok (false, some submitFailReply), ⟨[(tid, "failed")], 1, 0⟩)) ∨
    (∃ v, env.submit = Except.ok v ∧ truthyStr v = true ∧
      ((∃ e, env.wait = Except.error e ∧
        generate_video env s tid now =
          ((update_task_status
              (update_task_status s tid "processing" v none none now).1
              tid "failed" none none (some e) now).1,
            Except.ok (false, some genericErrorReply),
            ⟨[(tid, "processing"), (tid, "failed")], 1, 1⟩)) ∨
      (∃ u, env.wait = Except.ok u ∧ truthyStr u = false ∧
        generate_video env s tid now =
          ((update_task_status
              (update_task_status s tid "processing" v none none now).1
              tid "failed" none none (some timeoutDetail) now).1,
            Except.ok (false, some timeoutReply),
            ⟨[(tid, "processing"), (tid, "failed")], 1, 1⟩)) ∨
      (∃ u, env.wait = Except.ok u ∧ truthyStr u = true ∧
        generate_video env s tid now =
          (increment_user_videos
              (update_task_status
                (update_task_status s tid "processing" v none none now).1
                tid "completed" none u none now).1
              t0.user_id now,
            Except.ok (true, none),
            ⟨[(tid, "processing"), (tid, "completed")], 1, 1⟩)))) := by
  cases hs : env.submit with
  | error e =>
    exact Or.inl ⟨e, rfl, by simp only [generate_video, hget, hs]⟩
  | ok v =>
    by_cases hv : truthyStr v = true
    · refine Or.inr (Or.inr ⟨v, rfl, hv, ?_⟩)
      cases hw : env.wait with
      | error e =>
        exact Or.inl ⟨e, rfl, by simp only [generate_video, hget, hs, hw, hv,
          Bool.not_true, Bool.false_eq_true, if_false]⟩
      | ok u =>
        by_cases hu : truthyStr u = true
        · exact Or.inr (Or.inr ⟨u, rfl, hu, by simp only [generate_video, hget, hs, hw, hv, hu,
            Bool.not_true, Bool.false_eq_true, if_false]⟩)
        · have hu' : truthyStr u = false := by simp [Bool.eq_false_iff, hu]
          exact Or.inr (Or.inl ⟨u, rfl, hu', by simp only [generate_video, hget, hs, hw, hv, hu',
            Bool.not_true, Bool.not_false, Bool.false_eq_true, if_false, if_true]⟩)
    · have hv' : truthyStr v = false := by simp [Bool.eq_false_iff, hv]
      exact Or.inr (Or.inl ⟨v, rfl, hv', by simp only [generate_video, hget, hs, hv',
        Bool.not_false, if_true]⟩)

/-- On every environment behaviour `generate_video` returns an `ok` result. -/
theorem generate_video_ok (env : Env) (s : DBState) (tid now : Nat) :
    ∃ p, (generate_video env s tid now).2.1 = Except.ok p := by
  cases hget : get_task_by_id s tid with
  | none => exact ⟨(false, some notFoundReply), by simp only [generate_video, hget]⟩
  | some t0 =>
    rcases generate_video_cases env s tid now t0 hget with
      ⟨e, _, hgv⟩ | ⟨v, _, _, hgv⟩ | ⟨v, _, _,
        ⟨e, _, hgv⟩ | ⟨u, _, _, hgv⟩ | ⟨u, _, _, hgv⟩⟩ <;>
      exact ⟨_, by rw [hgv]⟩

/-- C2. No unhandled fault escapes the core: every orchestrator-level
operation (`can_user_generate_video`, `generate_video`, `cancel_task`,
`get_task_status_message`) returns a typed reply for every repository state
and every rendering-client behaviour, exceptions included; moreover whenever
`generate_video` reports failure on an existing task, that task has been
persisted as `failed`. -/
theorem core_no_unhandled_fault :
    (∀ (op : CoreOp) (s : DBState), ∃ r, (runOp op s).2 = Except.ok r) ∧
    (∀ (env : Env) (s : DBState) (tid now : Nat) (b : Bool) (m : Option String) (t0 : VideoTask),
      (generate_video env s tid now).2.1 = Except.ok (b, m) → b = false →
      get_task_by_id s tid = some t0 →
      (get_task_by_id (generate_video env s tid now).1 tid).map VideoTask.status =
        some "failed") := by
  constructor
  · intro op s
    cases op with
    | canGen cfg uid ts => exact ⟨_, rfl⟩
    | cancel uid tid now => exact ⟨_, rfl⟩
    | statusMsg uid => exact ⟨_, rfl⟩
    | genVideo env tid now =>
      obtain ⟨p, hp⟩ := generate_video_ok env s tid now
      exact ⟨CoreReply.genResult p.1 p.2, by simp only [runOp, hp, Except.map]⟩
  · intro env s tid now b m t0 hok hb hget
    rcases generate_video_cases env s tid now t0 hget with
      ⟨e, _, hgv⟩ | ⟨v, _, _, hgv⟩ | ⟨v, _, _,
        ⟨e, _, hgv⟩ | ⟨u, _, _, hgv⟩ | ⟨u, _, _, hgv⟩⟩
    · rw [hgv]
      simp [get_task_by_id_update, hget, applyUpd_status]
    · rw [hgv]
      simp [get_task_by_id_update, hget, applyUpd_status]
    · rw [hgv]
      simp [get_task_by_id_update, hget, applyUpd_status]
    · rw [hgv]
      simp [get_task_by_id_update, hget, applyUpd_status]
    · rw [hgv] at hok
      simp at hok
      exact absurd hok.1.symm (by simp [hb])

/-- Witness for C2: the cancel operation on a concrete state returns a typed
reply. -/
theorem core_no_unhandled_fault_witness :
    ∃ r, (runOp (CoreOp.cancel 7 none 9) demoCancelS).2 = Except.ok r :=
  core_no_unhandled_fault.1 (CoreOp.cancel 7 none 9) demoCancelS

/-- C9. Submission failure: when the rendering client returns no render id,
`generate_video` persists the task as `failed` with the submission-error
detail, returns the caller-visible submission error, performs exactly one
submit call (no retry), never polls and never writes a `processing` status in
that run. -/
theorem generate_video_submission_failure (env : Env) (s : DBState) (tid now : Nat)
    (v : Option String) (t0 : VideoTask)
    (hs : env.submit = Except.ok v) (hv : truthyStr v = false)
    (hget : get_task_by_id s tid = some t0) :
    (generate_video env s tid now).2.1 = Except.ok (false, some submitFailReply) ∧
    (generate_video env s tid now).2.2.submits = 1 ∧
    (generate_video env s tid now).2.2.waits = 0 ∧
    (generate_video env s tid now).2.2.updates = [(tid, "failed")] ∧
    (∀ st, (tid, st) ∈ (generate_video env s tid now).2.2.updates → st ≠ "processing") ∧
    (get_task_by_id (generate_video env s tid now).1 tid).map VideoTask.status =
      some "failed" ∧
    (get_task_by_id (generate_video env s tid now).1 tid).map VideoTask.error_message =
      some (some submitFailDetail) := by
  have hgv : generate_video env s tid now =
      ((update_task_status s tid "failed" none none (some submitFailDetail) now).1,
        Except.ok (false, some submitFailReply), ⟨[(tid, "failed")], 1, 0⟩) := by
    simp only [generate_video, hget, hs, hv, Bool.not_false, if_true]
  rw [hgv]
  refine ⟨rfl, rfl, rfl, rfl, ?_, ?_, ?_⟩
  · intro st hst
    simp at hst
    simp [hst]
  · simp [get_task_by_id_update, hget, applyUpd_status]
  · simp [get_task_by_id_update, hget]
    rfl

def demoSubmitFailEnv : Env := ⟨Except.ok none, Except.ok none⟩

/-- Witness for C9 on a concrete pending task. -/
theorem generate_video_submission_failure_witness :
    (generate_video demoSubmitFailEnv demoPendingS 1 9).2.1 =
      Except.ok (false, some submitFailReply) ∧
    (get_task_by_id (generate_video demoSubmitFailEnv demoPendingS 1 9).1 1).map
      VideoTask.status = some "failed" :=
  ⟨(generate_video_submission_failure demoSubmitFailEnv demoPendingS 1 9 none
      (demoTask 1 7 "pending") rfl rfl rfl).1,
   (generate_video_submission_failure demoSubmitFailEnv demoPendingS 1 9 none
      (demoTask 1 7 "pending") rfl rfl rfl).2.2.2.2.2.1⟩

/-! ## Terminal-state monotonicity: claim C3 (refuted and amended) -/

def demoRerunEnv : Env := ⟨Except.ok (some "vid1"), Except.ok (some "http-video")⟩

def demoCancelledS : DBState := (cancel_task demoPendingS 7 none 5).1

/-- Counterexample to C3 as stated: after the user's cancellation has moved
task 1 to the terminal status `failed`, a `generate_video` run for the same
task (exactly the in-flight polling run of the claim's example, which re-reads
nothing before writing) overwrites the terminal status with `completed`. -/
theorem terminal_overwrite_counterexample :
    (get_task_by_id demoCancelledS 1).map VideoTask.status = some "failed" ∧
    (get_task_by_id (generate_video demoRerunEnv demoCancelledS 1 9).1 1).map
      VideoTask.status = some "completed" := ⟨rfl, rfl⟩

/-- C3 amended: cancellation itself never touches a terminal row — both the
single-task form (which checks the status first) and the bulk form (which
updates only pending/processing rows) keep every `completed` or `failed` row
unchanged; but `update_task_status` applies any requested status
unconditionally, so a concluding polling run does overwrite a concurrently
recorded terminal status (see the counterexample). -/
theorem cancel_preserves_terminal (s : DBState) (uid now : Nat) (otid : Option Nat)
    (hnd : (s.tasks.map (fun t => t.task_id)).Nodup) (t : VideoTask) (ht : t ∈ s.tasks)
    (hterm : t.status = "completed" ∨ t.status = "failed") :
    t ∈ (cancel_task s uid otid now).1.tasks := by
  have hnact : isActiveTask t = false := by
    rcases hterm with h | h <;> simp [isActiveTask, h]
  unfold cancel_task
  by_cases htr : truthyNat otid = true
  · rw [if_pos htr]
    cases hget : get_task_by_id s (otid.getD 0) with
    | none =>
      simp only [hget]
      exact ht
    | some task =>
      simp only [hget]
      by_cases huser : (task.user_id == uid) = true
      · rw [if_neg (by simp [huser])]
        by_cases hact : isActiveTask task = true
        · rw [if_neg (by simp [hact])]
          simp only [update_task_status_tasks]
          have htne : (t.task_id == otid.getD 0) = false := by
            cases hbeq : t.task_id == otid.getD 0 with
            | false => rfl
            | true =>
              have hget' : s.tasks.find? (fun x => x.task_id == otid.getD 0) = some task := hget
              have htask_mem : task ∈ s.tasks := List.mem_of_find?_eq_some hget'
              have htask_id := List.find?_some hget'
              simp only at htask_id
              have : t = task := List.inj_on_of_nodup_map hnd ht htask_mem
                ((eq_of_beq hbeq).trans (eq_of_beq htask_id).symm)
              rw [this, hact] at hnact
              exact absurd hnact (by simp)
          refine List.mem_map.2 ⟨t, ht, ?_⟩
          rw [if_neg (by simp [htne])]
        · rw [if_pos (by simp [Bool.eq_false_iff.2 hact])]
          exact ht
      · rw [if_pos (by simp [Bool.eq_false_iff.2 huser])]
        exact ht
  · rw [if_neg htr]
    by_cases hemp : (get_user_active_tasks s uid).isEmpty = true
    · rw [if_pos hemp]
      exact ht
    · rw [if_neg hemp]
      simp only [cancel_fold_tasks]
      refine List.mem_map.2 ⟨t, ht, ?_⟩
      have hcond : ((get_user_active_tasks s uid).any fun x => t.task_id == x.task_id) = false := by
        cases hany : (get_user_active_tasks s uid).any fun x => t.task_id == x.task_id with
        | false => rfl
        | true =>
          obtain ⟨x, hxmem, hbeq⟩ := List.any_eq_true.1 hany
          obtain ⟨hxs, hxp⟩ := List.mem_filter.1 hxmem
          have : t = x := List.inj_on_of_nodup_map hnd ht hxs (eq_of_beq hbeq)
          rw [← this] at hxp
          rw [hnact] at hxp
          simp at hxp
      rw [if_neg (by simp [hcond])]

/-- Witness for the amended C3: the completed task of the demo state survives
a bulk cancel untouched. -/
theorem cancel_preserves_terminal_witness :
    demoTask 3 7 "completed" ∈ (cancel_task demoCancelS 7 none 9).1.tasks :=
  cancel_preserves_terminal demoCancelS 7 9 none (by decide)
    (demoTask 3 7 "completed") (by decide) (Or.inl rfl)

/-! ## Timestamp / error-detail coupling: claim C7 (refuted and amended) -/

/-- The coupling invariant of the claim. -/
def task_fields_consistent (t : VideoTask) : Prop :=
  (t.completed_at.isSome ↔ t.status = "completed") ∧
  (t.error_message.isSome ↔ t.status = "failed")

/-- Counterexample to C7 as stated: the cancelled-then-rerun task ends with
status `completed` while its error detail is still the cancellation message —
`update_task_status` never clears `error_message`, so the detail of a task that
is no longer `failed` survives. -/
theorem timestamp_coupling_counterexample :
    (get_task_by_id (generate_video demoRerunEnv demoCancelledS 1 9).1 1).map
        VideoTask.error_message = some (some cancelDetail) ∧
    (get_task_by_id (generate_video demoRerunEnv demoCancelledS 1 9).1 1).map
        VideoTask.status = some "completed" ∧
    ¬ ((some cancelDetail : Option String).isSome ↔ ("completed" : String) = "failed") := by
  refine ⟨rfl, rfl, ?_⟩
  intro h
  exact absurd (h.1 (by decide)) (by decide)

/-- C7 amended: the coupling holds for every task along the intended run-once
lifecycle — a freshly created task (`pending`, no error detail, no completion
timestamp) satisfies it, and a single `generate_video` run on such a task
re-establishes it for every client behaviour whose exception messages are
non-empty; it is re-running or concurrently mutating a task that breaks the
coupling, because stale details are never cleared. -/
theorem fresh_lifecycle_consistent :
    (∀ (s : DBState) (uid : Nat) (aid vid txt : String) (now : Nat),
      (create_video_task s uid aid vid txt now).2.status = "pending" ∧
      (create_video_task s uid aid vid txt now).2.error_message = none ∧
      (create_video_task s uid aid vid txt now).2.completed_at = none ∧
      task_fields_consistent (create_video_task s uid aid vid txt now).2) ∧
    (∀ (env : Env) (s : DBState) (tid now : Nat) (t0 : VideoTask),
      get_task_by_id s tid = some t0 →
      t0.error_message = none → t0.completed_at = none →
      (∀ e, env.submit = Except.error e → e ≠ "") →
      (∀ e, env.wait = Except.error e → e ≠ "") →
      ∃ t1, get_task_by_id (generate_video env s tid now).1 tid = some t1 ∧
        task_fields_consistent t1) := by
  constructor
  · intro s uid aid vid txt now
    exact ⟨rfl, rfl, rfl, by simp [task_fields_consistent, create_video_task]⟩
  · intro env s tid now t0 hget herr hcomp hse hwe
    rcases generate_video_cases env s tid now t0 hget with
      ⟨e, hs, hgv⟩ | ⟨v, hs, hv, hgv⟩ | ⟨v, hs, hv,
        ⟨e, hw, hgv⟩ | ⟨u, hw, hu, hgv⟩ | ⟨u, hw, hu, hgv⟩⟩
    · rw [hgv]
      have he : truthyStr (some e) = true := by
        have := hse e hs
        simp [truthyStr, this]
      refine ⟨applyUpd "failed" none none (some e) now t0, ?_, ?_⟩
      · rw [get_task_by_id_update, hget]
        rfl
      · unfold task_fields_consistent applyUpd
        simp [he, hcomp, herr]
    · rw [hgv]
      refine ⟨applyUpd "failed" none none (some submitFailDetail) now t0, ?_, ?_⟩
      · rw [get_task_by_id_update, hget]
        rfl
      · unfold task_fields_consistent applyUpd
        simp [hcomp, herr, truthyStr, submitFailDetail]
    · rw [hgv]
      have he : truthyStr (some e) = true := by
        have := hwe e hw
        simp [truthyStr, this]
      refine ⟨applyUpd "failed" none none (some e) now
          (applyUpd "processing" v none none now t0), ?_, ?_⟩
      · rw [get_task_by_id_update, get_task_by_id_update, hget]
        rfl
      · unfold task_fields_consistent applyUpd
        simp [he, hcomp, herr, hv]
    · rw [hgv]
      refine ⟨applyUpd "failed" none none (some timeoutDetail) now
          (applyUpd "processing" v none none now t0), ?_, ?_⟩
      · rw [get_task_by_id_update, get_task_by_id_update, hget]
        rfl
      · unfold task_fields_consistent applyUpd
        simp [hcomp, herr, hv, truthyStr, timeoutDetail]
    · rw [hgv]
      refine ⟨applyUpd "completed" none u none now
          (applyUpd "processing" v none none now t0), ?_, ?_⟩
      · rw [get_task_by_id_increment, get_task_by_id_update, get_task_by_id_update, hget]
        rfl
      · unfold task_fields_consistent applyUpd
        simp [hcomp, herr, hv, hu]

/-- Witness for the amended C7: a successful run on the fresh demo task ends
with `completed_at` set, no error detail and status `completed`. -/
theorem fresh_lifecycle_consistent_witness :
    ∃ t1, get_task_by_id (generate_video demoRerunEnv demoPendingS 1 9).1 1 = some t1 ∧
      task_fields_consistent t1 :=
  fresh_lifecycle_consistent.2 demoRerunEnv demoPendingS 1 9 (demoTask 1 7 "pending")
    rfl rfl rfl (fun e he => by simp [demoRerunEnv] at he) (fun e he => by simp [demoRerunEnv] at he)

end TestBot
